import Mathlib

/-!
Shallow embedding of the CPU-Emulator repository (src/vm.cpp and
src/assembler.cpp) together with theorems settling the specification
claims about it.

Machine integers are modelled as `Nat` with explicit `% 256` (uint8_t)
and `% 65536` (uint16_t) where C++ performs a narrowing conversion.
The byte arrays `ram`, `rom` and `registers` are modelled as total
functions `Nat → Nat`; every read site truncates with `% 256`, which
agrees with the C++ `uint8_t` cells on all in-range states.
`std::map` is modelled as an association list whose `insert` keeps the
first binding, exactly as `std::map::insert` does.
-/

namespace CPUEmulator

/-- uint8_t truncation. -/
def byte (x : Nat) : Nat := x % 256

/-- vm.cpp `isBitSet`: `(n & (1 << k)) != 0`. -/
def isBitSet (n k : Nat) : Bool := n &&& (1 <<< k) != 0

/-- VM state: 4KB RAM, 4KB ROM, the register file A/B/C/F
(indices 0..3 of `registers`), and the 16-bit program counter. -/
structure VMState where
  ram : Nat → Nat
  rom : Nat → Nat
  registers : Nat → Nat
  PC : Nat

/-- Pointwise update of a byte array. -/
def upd (f : Nat → Nat) (i v : Nat) : Nat → Nat :=
  fun j => if j = i then v else f j

/-- Read a ROM byte (uint8_t read). -/
def romb (s : VMState) (i : Nat) : Nat := byte (s.rom i)

/-- Read a register byte (uint8_t read). -/
def regb (s : VMState) (i : Nat) : Nat := byte (s.registers i)

/-- `VM::execute` from vm.cpp, entered with `PC` already advanced past
the opcode byte (the fetch in `VM::run` increments `PC` first).
Returns the new state and `true` when the instruction returned `-1`,
i.e. when `VM::run` stops.  The C++ `execute` only ever returns an
explicit value on the `-1` paths (case 0x00 and the default case); on
every other path control falls off the end of the function and the run
loop continues, which is modelled as returning `false`. -/
def execute (opcode : Nat) (s : VMState) : VMState × Bool :=
  if opcode = 0x01 then
    -- LDA, value
    let value := romb s s.PC
    ({ s with registers := upd s.registers 0 value, PC := (s.PC + 1) % 65536 }, false)
  else if opcode = 0x02 then
    -- LDA, register
    let reg := romb s s.PC
    ({ s with registers := upd s.registers 0 (regb s reg), PC := (s.PC + 1) % 65536 }, false)
  else if opcode = 0x03 then
    -- STA, address
    let location := (romb s s.PC <<< 8) ||| romb s ((s.PC + 1) % 65536)
    ({ s with ram := upd s.ram location (regb s 0), PC := (s.PC + 2) % 65536 }, false)
  else if opcode = 0x04 then
    -- LDB, value
    let value := romb s s.PC
    ({ s with registers := upd s.registers 1 value, PC := (s.PC + 1) % 65536 }, false)
  else if opcode = 0x05 then
    -- LDB, register
    let reg := romb s s.PC
    ({ s with registers := upd s.registers 1 (regb s reg), PC := (s.PC + 1) % 65536 }, false)
  else if opcode = 0x06 then
    -- STB, address
    let location := (romb s s.PC <<< 8) ||| romb s ((s.PC + 1) % 65536)
    ({ s with ram := upd s.ram location (regb s 1), PC := (s.PC + 2) % 65536 }, false)
  else if opcode = 0x07 then
    -- LDC, value
    let value := romb s s.PC
    ({ s with registers := upd s.registers 2 value, PC := (s.PC + 1) % 65536 }, false)
  else if opcode = 0x08 then
    -- LDC, register
    let reg := romb s s.PC
    ({ s with registers := upd s.registers 2 (regb s reg), PC := (s.PC + 1) % 65536 }, false)
  else if opcode = 0x09 then
    -- STC, address
    let location := (romb s s.PC <<< 8) ||| romb s ((s.PC + 1) % 65536)
    ({ s with ram := upd s.ram location (regb s 2), PC := (s.PC + 2) % 65536 }, false)
  else if opcode = 0x0A then
    -- LDA, address
    let location := (romb s s.PC <<< 8) ||| romb s ((s.PC + 1) % 65536)
    ({ s with registers := upd s.registers 0 (byte (s.ram location)), PC := (s.PC + 2) % 65536 }, false)
  else if opcode = 0x0B then
    -- ADD register, register: `registers[reg] |= registers[reg2]`
    let reg := romb s s.PC
    let reg2 := romb s ((s.PC + 1) % 65536)
    ({ s with registers := upd s.registers reg (regb s reg ||| regb s reg2),
              PC := (s.PC + 2) % 65536 }, false)
  else if opcode = 0x0C then
    -- SUB register, register: `registers[reg] &= ~registers[reg2]`
    let reg := romb s s.PC
    let reg2 := romb s ((s.PC + 1) % 65536)
    ({ s with registers := upd s.registers reg (regb s reg &&& (regb s reg2 ^^^ 255)),
              PC := (s.PC + 2) % 65536 }, false)
  else if opcode = 0x0D then
    -- ADD register, value: `registers[reg] += value`
    let reg := romb s s.PC
    let value := romb s ((s.PC + 1) % 65536)
    ({ s with registers := upd s.registers reg (byte (regb s reg + value)),
              PC := (s.PC + 2) % 65536 }, false)
  else if opcode = 0x0E then
    -- SUB register, value: `registers[reg] &= ~value`
    let reg := romb s s.PC
    let value := romb s ((s.PC + 1) % 65536)
    ({ s with registers := upd s.registers reg (regb s reg &&& (value ^^^ 255)),
              PC := (s.PC + 2) % 65536 }, false)
  else if opcode = 0x0F then
    -- AND register, register
    let reg := romb s s.PC
    let reg2 := romb s ((s.PC + 1) % 65536)
    ({ s with registers := upd s.registers reg (regb s reg &&& regb s reg2),
              PC := (s.PC + 2) % 65536 }, false)
  else if opcode = 0x10 then
    -- OR register, register
    let reg := romb s s.PC
    let reg2 := romb s ((s.PC + 1) % 65536)
    ({ s with registers := upd s.registers reg (regb s reg ||| regb s reg2),
              PC := (s.PC + 2) % 65536 }, false)
  else if opcode = 0x11 then
    -- XOR register, register
    let reg := romb s s.PC
    let reg2 := romb s ((s.PC + 1) % 65536)
    ({ s with registers := upd s.registers reg (regb s reg ^^^ regb s reg2),
              PC := (s.PC + 2) % 65536 }, false)
  else if opcode = 0x12 then
    -- NOT register
    let reg := romb s s.PC
    ({ s with registers := upd s.registers reg (regb s reg ^^^ 255),
              PC := (s.PC + 1) % 65536 }, false)
  else if opcode = 0x13 then
    -- JMP directly to address; `value` is a uint8_t in the source,
    -- so the composed 16-bit big-endian quantity is truncated.
    let value := byte ((romb s s.PC <<< 8) ||| romb s ((s.PC + 1) % 65536))
    ({ s with PC := value }, false)
  else if opcode = 0x14 then
    -- JMP if flags match ZERO
    let value := byte ((romb s s.PC <<< 8) ||| romb s ((s.PC + 1) % 65536))
    if regb s 3 &&& 0b01 ≠ 0 then
      ({ s with PC := value }, false)
    else
      ({ s with PC := (s.PC + 2) % 65536 }, false)
  else if opcode = 0x15 then
    -- JMP if flags match NOT ZERO; `PC = value - 1` in the source
    let value := byte ((romb s s.PC <<< 8) ||| romb s ((s.PC + 1) % 65536))
    if regb s 3 &&& 0b01 = 0 then
      ({ s with PC := (value + 65535) % 65536 }, false)
    else
      ({ s with PC := (s.PC + 2) % 65536 }, false)
  else if opcode = 0x16 then
    -- JMP if flags match CARRY
    let value := byte ((romb s s.PC <<< 8) ||| romb s ((s.PC + 1) % 65536))
    if isBitSet (regb s 3) 1 then
      ({ s with PC := value }, false)
    else
      ({ s with PC := (s.PC + 2) % 65536 }, false)
  else if opcode = 0x17 then
    -- JMP if flags match NOT CARRY
    let value := byte ((romb s s.PC <<< 8) ||| romb s ((s.PC + 1) % 65536))
    if ¬ isBitSet (regb s 3) 1 then
      ({ s with PC := value }, false)
    else
      ({ s with PC := (s.PC + 2) % 65536 }, false)
  else if opcode = 0x18 then
    -- CP value: the four successive `if`s of the source
    let value := romb s s.PC
    let reg := regb s 0
    let f0 := regb s 3
    let f1 := if reg = value then 0b01 else f0
    let f2 := if reg ≠ value then f1 &&& 254 else f1
    let f3 := if reg > value then 0 else f2
    let f4 := if reg < value then 0b10 else f3
    ({ s with registers := upd s.registers 3 f4, PC := (s.PC + 1) % 65536 }, false)
  else if opcode = 0x00 then
    -- NOP: `return -1`
    (s, true)
  else if opcode = 0xFF then
    -- "Just skip, this is a small assembler bug that will be fixed later"
    (s, false)
  else
    -- default: print "Unknown opcode" and `return -1`
    (s, true)

/-- `VM::run`, fuel-indexed: fetch at `PC` while `PC < rom.size()`
(= 4096), advance `PC`, execute, stop when `execute` returned `-1`. -/
def run (fuel : Nat) (s : VMState) : VMState :=
  match fuel with
  | 0 => s
  | fuel + 1 =>
    if s.PC < 4096 then
      let instruction := romb s s.PC
      let r := execute instruction { s with PC := (s.PC + 1) % 65536 }
      if r.2 then r.1 else run fuel r.1
    else s

/-- `VM()` constructor followed by `VM::load_program`: zeroed RAM and
registers, ROM holding the program bytes followed by zeros, `PC = 0`. -/
def load_program (program : List Nat) : VMState :=
  { ram := fun _ => 0
    rom := fun i => program.getD i 0
    registers := fun _ => 0
    PC := 0 }

/-! Assembler (src/assembler.cpp).

Lines are modelled as strings; `std::istringstream` extraction is
modelled by whitespace tokenization (a failed extraction yields `""`,
as `operator>>` empties the string on failure).  `std::map::at` on a
missing key throws in C++; the lookup tables below return a default
instead — every theorem only exercises lines whose keys are present.
`std::stoi` / `std::stoul` are modelled on their defined inputs
(leading digits of the token). -/

/-- Character-list view of `std::string` operations, written with
structural recursion so that concrete assemblies reduce inside the
kernel.  `strBack`/`strFront` on an empty string (undefined behavior
in C++) return the placeholder `'&'`, which matches no branch. -/
def strTake (t : String) (n : Nat) : String := String.mk (t.toList.take n)

/-- Drop the first `n` characters (`substr(n)`). -/
def strDrop (t : String) (n : Nat) : String := String.mk (t.toList.drop n)

/-- Last character (`back()`). -/
def strBack (t : String) : Char := t.toList.getLastD '&'

/-- First character (`front()`). -/
def strFront (t : String) : Char := t.toList.headD '&'

/-- Length in characters (`size()`). -/
def strLen (t : String) : Nat := t.toList.length

/-- Remove the last character (`pop_back()`). -/
def strPopBack (t : String) : String := String.mk t.toList.dropLast

/-- Strip everything from the first comma on
(`token.erase(token.find(','))`). -/
def stripComma (t : String) : String := String.mk (t.toList.takeWhile (· ≠ ','))

/-- The in-place mutation `is_register` performs on its argument:
uppercase the whole token (`std::toupper`), then strip from the first
comma. -/
def normalizeReg (t : String) : String :=
  String.mk ((t.toList.map Char.toUpper).takeWhile (· ≠ ','))

/-- assembler.cpp `registers` table. -/
def registers : List String := ["A", "B", "C"]

/-- assembler.cpp `is_register` (result; the argument mutation is
`normalizeReg`). -/
def is_register (t : String) : Bool := registers.contains (normalizeReg t)

/-- assembler.cpp `is_address`. -/
def is_address (t : String) : Bool := strFront t == '$' && strLen t > 1

/-- assembler.cpp `is_hex`: leading `0` and an uppercase `X` second. -/
def is_hex (t : String) : Bool :=
  strFront t == '0' && strLen t > 1 && t.toList.getD 1 ' ' == 'X'

/-- `ld_registers` map. -/
def ld_registers (c : Char) : Nat :=
  if c = 'A' then 0x02 else if c = 'B' then 0x05 else if c = 'C' then 0x08 else 0

/-- `ld_values` map. -/
def ld_values (c : Char) : Nat :=
  if c = 'A' then 0x01 else if c = 'B' then 0x04 else if c = 'C' then 0x07 else 0

/-- `st_addresses` map. -/
def st_addresses (c : Char) : Nat :=
  if c = 'A' then 0x03 else if c = 'B' then 0x06 else if c = 'C' then 0x09 else 0

/-- `register_codes` map. -/
def register_codes (c : Char) : Nat :=
  if c = 'A' then 0x00 else if c = 'B' then 0x01 else if c = 'C' then 0x02 else 0

/-- `bitwise_operations` map. -/
def bitwise_operations (t : String) : Option Nat :=
  if t = "AND" then some 0x0F else if t = "OR" then some 0x10
  else if t = "XOR" then some 0x11 else if t = "NOT" then some 0x12 else none

/-- `jump_cases` map. -/
def jump_cases (t : String) : Option Nat :=
  if t = "Z" then some 0x14 else if t = "NZ" then some 0x15
  else if t = "C" then some 0x16 else if t = "NC" then some 0x17 else none

/-- assembler.cpp `is_jump_case` (it also strips the comma in place). -/
def is_jump_case (t : String) : Bool := (jump_cases (stripComma t)).isSome

/-- `std::stoi` on a nonnegative decimal token (leading digits). -/
def stoiNat (s : String) : Nat :=
  (s.toList.takeWhile Char.isDigit).foldl (fun a c => a * 10 + (c.toNat - 48)) 0

/-- Value of one hexadecimal digit. -/
def hexDigitVal (c : Char) : Nat :=
  if '0' ≤ c ∧ c ≤ '9' then c.toNat - 48
  else if 'a' ≤ c ∧ c ≤ 'f' then c.toNat - 87
  else if 'A' ≤ c ∧ c ≤ 'F' then c.toNat - 55 else 0

/-- `std::stoul(s, nullptr, 16)` on the leading hex digits. -/
def stoulHex (s : String) : Nat :=
  (s.toList.takeWhile (fun c => hexDigitVal c ≠ 0 ∨ c = '0')).foldl
    (fun a c => a * 16 + hexDigitVal c) 0

/-- assembler.cpp `get_value`: on an `is_hex` token the source streams
`std::hex` into a `uint8_t`, which extracts a single character — the
leading `'0'` — so the result is that character's code; otherwise
`std::stoi`, truncated to uint8_t. -/
def get_value (t : String) : Nat :=
  if is_hex t then byte (strFront t).toNat else byte (stoiNat t)

/-- assembler.cpp `clean_line`: erase from the first `;`. -/
def clean_line (line : String) : String :=
  String.mk (line.toList.takeWhile (· ≠ ';'))

/-- Accumulator-based whitespace splitter for `tokenize`. -/
def tokenizeAux : List Char → List Char → List String
  | [], cur => if cur = [] then [] else [String.mk cur.reverse]
  | c :: cs, cur =>
    if c.isWhitespace then
      if cur = [] then tokenizeAux cs []
      else String.mk cur.reverse :: tokenizeAux cs []
    else tokenizeAux cs (c :: cur)

/-- Whitespace tokenization performed by `std::istringstream`. -/
def tokenize (line : String) : List String := tokenizeAux line.toList []

/-- `Instruction::EMPTY_OPERAND` — an `int`-valued enum constant. -/
def EMPTY_OPERAND : Int := -1

/-- assembler.cpp `Instruction`: the two uint8_t operand fields are
initialized from `EMPTY_OPERAND = -1`, i.e. to 255.  The opcode field
is uninitialized in the source; it is `none` until a branch sets it. -/
structure Instruction where
  opcode : Option Nat := none
  operand1 : Nat := 255
  operand2 : Nat := 255

/-- assembler.cpp `ParsedLine`. -/
structure ParsedLine where
  instruction : Instruction := {}
  label : String := ""
  is_label : Bool := false
  address : Nat := 0
  size : Nat := 0

/-- The assembler driver's mutable state: the global `program` buffer,
the `address` counter and the two label maps from `main`. -/
structure AsmState where
  program : List Nat := []
  address : Nat := 0
  labels : List (String × Nat) := []
  waiting : List (String × Nat) := []

/-- `std::map::insert`: keep the existing binding if the key is
already present. -/
def mapInsert (m : List (String × Nat)) (k : String) (v : Nat) :
    List (String × Nat) :=
  if (m.lookup k).isSome then m else (k, v) :: m

/-- assembler.cpp `check_waiting_labels`: if `label` has a queued
offset, overwrite the placeholder bytes at `offset - 1` (high byte)
and `offset` (low byte) with the resolved address. -/
def check_waiting_labels (program : List Nat) (waiting : List (String × Nat))
    (label : String) (current_address : Nat) : List Nat :=
  match waiting.lookup label with
  | some address =>
      (program.set (address - 1) (byte (current_address >>> 8))).set
        address (byte current_address)
  | none => program

/-- assembler.cpp `get_label_address`: a resolved label yields its
address; otherwise the call offset is queued (`std::map::insert`) and
`-1` is returned, which is 65535 as uint16_t. -/
def get_label_address (address : Nat) (label : String)
    (labels waiting : List (String × Nat)) : Nat × List (String × Nat) :=
  match labels.lookup label with
  | some a => (a, waiting)
  | none => (65535, mapInsert waiting label address)

/-- The `finish:` tail of `parse_line` for non-label lines: record the
line, then `*address += 1` for the opcode byte. -/
def finishLine (inst : Instruction) (start addr : Nat) (program : List Nat)
    (labels waiting : List (String × Nat)) : ParsedLine × AsmState :=
  ({ instruction := inst, address := addr, size := addr - start },
   { program := program, address := (addr + 1) % 65536,
     labels := labels, waiting := waiting })

/-- The CP / label / JMP / NOP suffix of `parse_line`'s branch chain.
`token` is the current (possibly mutated) token and `rest` the not yet
extracted tokens; the earlier branches can fall through into this
chain carrying a partially built instruction. -/
def parse_chain_cp (token : String) (rest : List String) (inst : Instruction)
    (start addr : Nat) (program : List Nat)
    (labels waiting : List (String × Nat)) : ParsedLine × AsmState :=
  if token = "CP" then
    let t := rest.getD 0 ""
    let addr := (addr + 2) % 65536
    finishLine { inst with opcode := some 0x18, operand1 := get_value t }
      start addr program labels waiting
  else if strBack token = ':' then
    -- label declaration; returns before the trailing `*address += 1`
    -- and before `parsed_line.instruction` is assigned
    let name := strPopBack token
    let addr := if addr = 0 then addr else (addr + 1) % 65536
    let labels := mapInsert labels name addr
    let program := check_waiting_labels program waiting name addr
    ({ label := name, is_label := true },
     { program := program, address := addr, labels := labels, waiting := waiting })
  else if strTake token 3 = "JMP" then
    let t := stripComma (rest.getD 0 "")
    let addr := (addr + 1) % 65536
    match jump_cases t with
    | some jump_case =>
        let t2 := rest.getD 1 ""
        let addr := (addr + 1) % 65536
        let r := get_label_address addr t2 labels waiting
        finishLine { inst with opcode := some jump_case,
                               operand1 := byte (r.1 >>> 8), operand2 := byte r.1 }
          start addr program labels r.2
    | none =>
        let r := get_label_address addr t labels waiting
        let inst := { inst with opcode := some 0x13,
                                operand1 := byte (r.1 >>> 8), operand2 := byte r.1 }
        let addr := (addr + 1) % 65536
        finishLine inst start addr program labels r.2
  else if token = "NOP" then
    finishLine { inst with opcode := some 0x00 } start addr program labels waiting
  else
    finishLine inst start addr program labels waiting

/-- The bitwise-operation branch of `parse_line` followed by the rest
of the chain; mirrors the source's fallthrough: when the operand is
not a register, control continues with the mutated token. -/
def parse_chain_bitwise (token : String) (rest : List String) (inst : Instruction)
    (start addr : Nat) (program : List Nat)
    (labels waiting : List (String × Nat)) : ParsedLine × AsmState :=
  match bitwise_operations token with
  | some _ =>
      let operation := strTake token 3
      let t := rest.getD 0 ""
      let addr := (addr + 1) % 65536
      let tM := normalizeReg t
      if is_register t then
        let inst := { inst with opcode := some ((bitwise_operations operation).getD 0),
                                operand1 := register_codes (strBack tM) }
        if operation = "NOT" then
          finishLine inst start addr program labels waiting
        else
          let t2 := rest.getD 1 ""
          let addr := (addr + 1) % 65536
          let t2M := normalizeReg t2
          if is_register t2 then
            finishLine { inst with operand2 := register_codes (strBack t2M) }
              start addr program labels waiting
          else
            parse_chain_cp t2M (rest.drop 2) inst start addr program labels waiting
      else
        parse_chain_cp tM (rest.drop 1) inst start addr program labels waiting
  | none => parse_chain_cp token rest inst start addr program labels waiting

/-- assembler.cpp `parse_line` over the tokens of one cleaned line. -/
def parse_line (tokens : List String) (s : AsmState) : ParsedLine × AsmState :=
  let start := s.address
  let t0 := tokens.getD 0 ""
  if strTake t0 2 = "LD" then
    let load_to := strBack t0
    let t := tokens.getD 1 ""
    let addr := (start + 1) % 65536
    let tM := normalizeReg t
    if is_register t then
      finishLine { opcode := some (ld_registers load_to),
                   operand1 := register_codes (strBack tM) }
        start ((addr + 1) % 65536) s.program s.labels s.waiting
    else if is_address tM && load_to = 'A' then
      let load_address := stoulHex (strDrop tM 1) % 65536
      finishLine { opcode := some 0x0A, operand1 := byte (load_address >>> 8),
                   operand2 := byte load_address }
        start ((addr + 1) % 65536) s.program s.labels s.waiting
    else
      finishLine { opcode := some (ld_values load_to), operand1 := get_value tM }
        start ((addr + 1) % 65536) s.program s.labels s.waiting
  else if strTake t0 2 = "ST" then
    let store_from := strBack t0
    let t := tokens.getD 1 ""
    let addr := (start + 1) % 65536
    let store_address := stoulHex (strDrop t 1) % 65536
    finishLine { opcode := some (st_addresses store_from),
                 operand1 := byte (store_address >>> 8),
                 operand2 := byte store_address }
      start ((addr + 1) % 65536) s.program s.labels s.waiting
  else if strTake t0 3 = "ADD" ∨ strTake t0 3 = "SUB" then
    let operation := strTake t0 3
    let t := tokens.getD 1 ""
    let addr := (start + 1) % 65536
    let tM := normalizeReg t
    if is_register t then
      let target_register := register_codes (strBack tM)
      let t2 := tokens.getD 2 ""
      let addr := (addr + 1) % 65536
      let t2M := normalizeReg t2
      if is_register t2 then
        -- no `goto finish` here in the source: control falls through
        -- the remaining branch chain with the mutated token
        parse_chain_bitwise t2M (tokens.drop 3)
          { opcode := some (if operation = "ADD" then 0x0B else 0x0C),
            operand1 := target_register, operand2 := register_codes (strBack t2M) }
          start addr s.program s.labels s.waiting
      else
        finishLine { opcode := some (if operation = "ADD" then 0x0D else 0x0E),
                     operand1 := target_register, operand2 := get_value t2M }
          start addr s.program s.labels s.waiting
    else
      parse_chain_bitwise tM (tokens.drop 2) {} start addr s.program s.labels s.waiting
  else
    parse_chain_bitwise t0 (tokens.drop 1) {} start start s.program s.labels s.waiting

/-- One iteration of the `while (std::getline...)` loop body in
`main`, after the empty-line check: parse the line, then append the
opcode and any operand whose (promoted) value differs from
`EMPTY_OPERAND` — the uint8_t fields can never compare equal to `-1`,
so both operand bytes are always appended. -/
def main_step (s : AsmState) (tokens : List String) : AsmState :=
  let r := parse_line tokens s
  let pl := r.1
  let s1 := r.2
  if pl.is_label then s1
  else
    let p1 := s1.program ++ [pl.instruction.opcode.getD 0]
    let p2 := if (pl.instruction.operand1 : Int) ≠ EMPTY_OPERAND
              then p1 ++ [pl.instruction.operand1] else p1
    let p3 := if (pl.instruction.operand2 : Int) ≠ EMPTY_OPERAND
              then p2 ++ [pl.instruction.operand2] else p2
    { s1 with program := p3 }

/-- The whole assembly loop of `main`: clean each line, skip empty
ones, and feed the rest through `main_step`. -/
def assemble (input : List String) : AsmState :=
  input.foldl
    (fun s line =>
      let cl := clean_line line
      if cl = "" then s else main_step s (tokenize cl))
    {}

/-! Helper lemmas. -/

/-- Bytes read through `romb` are below 256. -/
theorem romb_lt (s : VMState) (i : Nat) : romb s i < 256 :=
  Nat.mod_lt _ (by norm_num)

/-- Truncating a big-endian 16-bit composition to uint8_t keeps only
the low byte. -/
theorem byte_lor_shiftLeft (hi lo : Nat) (h : lo < 256) :
    byte ((hi <<< 8) ||| lo) = lo := by
  unfold byte
  apply Nat.eq_of_testBit_eq
  intro i
  have h256 : (256 : Nat) = 2 ^ 8 := by norm_num
  rw [h256, Nat.testBit_mod_two_pow, Nat.testBit_or, Nat.testBit_shiftLeft]
  rcases Nat.lt_or_ge i 8 with hi8 | hi8
  · simp [hi8, show ¬ 8 ≤ i from by omega]
  · have hp : 256 ≤ 2 ^ i := by
      calc 256 = 2 ^ 8 := by norm_num
        _ ≤ 2 ^ i := Nat.pow_le_pow_right (by norm_num) hi8
    have hlo : lo.testBit i = false :=
      Nat.testBit_lt_two_pow (Nat.lt_of_lt_of_le h hp)
    simp [hlo, show ¬ i < 8 from by omega]

/-- Specialization of `byte_lor_shiftLeft` to ROM reads, usable as a
simp lemma. -/
theorem byte_lor_romb (s : VMState) (a i : Nat) :
    byte ((a <<< 8) ||| romb s i) = romb s i :=
  byte_lor_shiftLeft _ _ (romb_lt s i)

/-- Casting a natural number to `Int` never yields `EMPTY_OPERAND`:
the always-true comparison guarding the operand pushes in `main`. -/
theorem natCast_ne_empty_operand (n : Nat) : (n : Int) ≠ EMPTY_OPERAND := by
  unfold EMPTY_OPERAND
  omega

/-- Concrete state for the register-immediate ADD counterexample:
accumulator 5, operand bytes selecting register A and immediate 3. -/
def c1state : VMState :=
  { ram := fun _ => 0
    rom := fun i => [0, 3].getD i 0
    registers := fun i => if i = 0 then 5 else 0
    PC := 0 }

/-- Concrete state for the conditional-jump truncation counterexample:
zero flag set, operand bytes 0x01 0x00 encoding target 0x0100. -/
def c3stateZ : VMState :=
  { ram := fun _ => 0
    rom := fun i => [1, 0].getD i 0
    registers := fun i => if i = 3 then 1 else 0
    PC := 0 }

/-- Concrete state for the NOT-ZERO off-by-one counterexample: flags
clear, operand bytes 0x00 0x05 encoding target 0x0005. -/
def c3stateNZ : VMState :=
  { ram := fun _ => 0
    rom := fun i => [0, 5].getD i 0
    registers := fun _ => 0
    PC := 0 }

/-- Source text of the §8 scenario. -/
def c4src : List String := ["LDA 5", "ADD A, 3", "STA $0000", "NOP"]

/-- Program exercising a non-Compare write to the flag register:
`LDA 5` then opcode 0x0B with target-register operand 3 (= F). -/
def c9program : List Nat := [0x01, 0x05, 0x0B, 0x03, 0x00, 0x00]

/-- Claim C1, counterexample: with accumulator 5, executing
register-immediate ADD (opcode 0x0D) with operands selecting register
A and immediate 3 yields 8 — integer addition — and not 5 OR 3 = 7 as
the claim states. -/
theorem C1_register_immediate_add_counterexample :
    (execute 0x0D c1state).1.registers 0 = 8
    ∧ (execute 0x0D c1state).1.registers 0 ≠ ((5 : Nat) ||| 3) := by
  decide

/-- Claim C1 as amended: register-register SUB (0x0C) is AND with the
8-bit complement of the source, register-register ADD (0x0B) is
bitwise OR, but register-immediate ADD (0x0D) performs wrapping 8-bit
integer addition of the immediate, not bitwise OR. -/
theorem C1_arithmetic_semantics (s : VMState) :
    ((execute 0x0B s).1.registers (romb s s.PC)
      = regb s (romb s s.PC) ||| regb s (romb s ((s.PC + 1) % 65536)))
    ∧ ((execute 0x0C s).1.registers (romb s s.PC)
      = regb s (romb s s.PC) &&& (regb s (romb s ((s.PC + 1) % 65536)) ^^^ 255))
    ∧ ((execute 0x0D s).1.registers (romb s s.PC)
      = (regb s (romb s s.PC) + romb s ((s.PC + 1) % 65536)) % 256) := by
  refine ⟨?_, ?_, ?_⟩ <;> simp [execute, upd, byte]

/-- Claim C3, counterexample: with the zero flag set, opcode 0x14 with
operand bytes 0x01 0x00 (big-endian target 0x0100) sets PC to 0, not
to 256 — the target is truncated through a uint8_t; and with flags
clear, opcode 0x15 with operand bytes 0x00 0x05 sets PC to 4, not 5 —
the NOT-ZERO variant subtracts one from the target. -/
theorem C3_conditional_jump_counterexample :
    ((execute 0x14 c3stateZ).1.PC = 0 ∧ (execute 0x14 c3stateZ).1.PC ≠ 256)
    ∧ ((execute 0x15 c3stateNZ).1.PC = 4 ∧ (execute 0x15 c3stateNZ).1.PC ≠ 5) := by
  decide

/-- Claim C3 as amended: a conditional jump consumes two ROM bytes;
the big-endian composition of those bytes is truncated to its low
8 bits (the second operand byte) because the source stores it in a
uint8_t.  When the flag condition holds, opcodes 0x14, 0x16 and 0x17
set PC to that truncated target while opcode 0x15 sets PC to the
truncated target minus one (mod 2^16); when the condition fails, PC
moves just past the two consumed bytes. -/
theorem C3_conditional_jump_semantics (s : VMState) :
    ((execute 0x14 s).1.PC
      = if regb s 3 &&& 1 ≠ 0 then romb s ((s.PC + 1) % 65536)
        else (s.PC + 2) % 65536)
    ∧ ((execute 0x15 s).1.PC
      = if regb s 3 &&& 1 = 0 then (romb s ((s.PC + 1) % 65536) + 65535) % 65536
        else (s.PC + 2) % 65536)
    ∧ ((execute 0x16 s).1.PC
      = if isBitSet (regb s 3) 1 then romb s ((s.PC + 1) % 65536)
        else (s.PC + 2) % 65536)
    ∧ ((execute 0x17 s).1.PC
      = if ¬ isBitSet (regb s 3) 1 then romb s ((s.PC + 1) % 65536)
        else (s.PC + 2) % 65536) := by
  refine ⟨?_, ?_, ?_, ?_⟩ <;>
    simp [execute, byte_lor_romb, apply_ite (fun p : VMState × Bool => p.1.PC)]

/-- Claim C5, confirmed: after CP (opcode 0x18) with operand v and
accumulator a, the zero bit of F is set iff v = a, the carry bit is
set iff v > a, and both bits are clear iff a > v. -/
theorem C5_compare_flags (s : VMState) :
    (((execute 0x18 s).1.registers 3 &&& 1 ≠ 0) ↔ romb s s.PC = regb s 0)
    ∧ (((execute 0x18 s).1.registers 3 &&& 2 ≠ 0) ↔ regb s 0 < romb s s.PC)
    ∧ ((((execute 0x18 s).1.registers 3 &&& 1 = 0)
        ∧ ((execute 0x18 s).1.registers 3 &&& 2 = 0))
      ↔ romb s s.PC < regb s 0) := by
  have key : (execute 0x18 s).1.registers 3
      = if regb s 0 = romb s s.PC then 1
        else if romb s s.PC < regb s 0 then 0 else 2 := by
    rcases Nat.lt_trichotomy (regb s 0) (romb s s.PC) with hc | hc | hc
    · simp [execute, upd, hc, hc.ne, Nat.lt_asymm hc]
    · simp [execute, upd, hc]
    · simp [execute, upd, hc, hc.ne', Nat.lt_asymm hc]
  rw [key]
  rcases Nat.lt_trichotomy (regb s 0) (romb s s.PC) with hc | hc | hc
  · rw [if_neg hc.ne, if_neg (Nat.lt_asymm hc)]
    refine ⟨?_, ?_, ?_⟩ <;> simp <;> omega
  · rw [if_pos hc]
    refine ⟨?_, ?_, ?_⟩ <;> simp <;> omega
  · rw [if_neg hc.ne', if_pos hc]
    refine ⟨?_, ?_, ?_⟩ <;> simp <;> omega

/-- Claim C6, counterexample: opcode 0xFF lies outside the ISA table
0x00–0x18, yet executing it leaves the state unchanged and lets the
run loop continue — it is treated as a no-op, and the VM does silently
continue past it. -/
theorem C6_unrecognized_opcode_counterexample :
    execute 0xFF (load_program []) = (load_program [], false) := by
  rfl

/-- Claim C6 as amended: every opcode outside the ISA table other than
0xFF makes `execute` return the halt signal (the source prints the
opcode and returns -1; there is no Faulted state carrying the opcode
and PC, and the outcome is the same state-result pair NOP produces),
while opcode 0xFF is silently skipped. -/
theorem C6_unknown_opcode_halts (op : Nat) (s : VMState)
    (hgt : 0x18 < op) (hff : op ≠ 0xFF) :
    execute op s = (s, true) ∧ execute 0xFF s = (s, false) := by
  refine ⟨?_, rfl⟩
  unfold execute
  rw [if_neg (show op ≠ 0x01 by omega), if_neg (show op ≠ 0x02 by omega),
    if_neg (show op ≠ 0x03 by omega), if_neg (show op ≠ 0x04 by omega),
    if_neg (show op ≠ 0x05 by omega), if_neg (show op ≠ 0x06 by omega),
    if_neg (show op ≠ 0x07 by omega), if_neg (show op ≠ 0x08 by omega),
    if_neg (show op ≠ 0x09 by omega), if_neg (show op ≠ 0x0A by omega),
    if_neg (show op ≠ 0x0B by omega), if_neg (show op ≠ 0x0C by omega),
    if_neg (show op ≠ 0x0D by omega), if_neg (show op ≠ 0x0E by omega),
    if_neg (show op ≠ 0x0F by omega), if_neg (show op ≠ 0x10 by omega),
    if_neg (show op ≠ 0x11 by omega), if_neg (show op ≠ 0x12 by omega),
    if_neg (show op ≠ 0x13 by omega), if_neg (show op ≠ 0x14 by omega),
    if_neg (show op ≠ 0x15 by omega), if_neg (show op ≠ 0x16 by omega),
    if_neg (show op ≠ 0x17 by omega), if_neg (show op ≠ 0x18 by omega),
    if_neg (show op ≠ 0x00 by omega), if_neg hff]

/-- Claim C6, witness for the amended theorem at opcode 0x42. -/
theorem C6_unknown_opcode_halts_witness :
    0x18 < 0x42 ∧ (0x42 : Nat) ≠ 0xFF
    ∧ (execute 0x42 (load_program []) = (load_program [], true)
       ∧ execute 0xFF (load_program []) = (load_program [], false)) :=
  ⟨by decide, by decide, C6_unknown_opcode_halts 0x42 (load_program []) (by decide) (by decide)⟩

/-- Claim C9, failing-input evaluation: the program LDA 5 followed by
opcode 0x0B with target-register operand 3 contains no CP (0x18), yet
running it leaves the flag register F = 5 — an arithmetic instruction
given register id 3 writes F directly. -/
theorem C9_flag_written_by_add :
    (run 10 (load_program c9program)).registers 3 = 5
    ∧ c9program.contains 0x18 = false := by
  decide

/-- Claim C2, failing-input evaluation: two conditional jumps to
`loop` before its definition.  The label resolves to address 7 and the
first jump's placeholder pair is patched to 00 07, but the second
jump's placeholder pair is left FF FF — `waiting_labels` is a map that
keeps only the first queued offset per label. -/
theorem C2_duplicate_forward_reference :
    (assemble ["JMP Z, loop", "JMP Z, loop", "loop:", "NOP"]).program
      = [0x14, 0x00, 0x07, 0x14, 0xFF, 0xFF, 0x00, 0xFF, 0xFF]
    ∧ (assemble ["JMP Z, loop", "JMP Z, loop", "loop:", "NOP"]).labels.lookup "loop"
      = some 7 := by
  decide

/-- Claim C4, counterexample: the §8 scenario source does not assemble
to 01 05 0D 00 03 03 00 00 00 — the buffer also receives the 0xFF
sentinel bytes — and running what it does assemble to leaves the
accumulator 8, not 7. -/
theorem C4_scenario_counterexample :
    (assemble c4src).program
      ≠ [0x01, 0x05, 0x0D, 0x00, 0x03, 0x03, 0x00, 0x00, 0x00]
    ∧ (run 20 (load_program (assemble c4src).program)).registers 0 ≠ 7 := by
  decide

/-- Claim C4 as amended: the scenario source assembles to
01 05 FF 0D 00 03 03 00 00 00 FF FF, and executing that program
leaves the accumulator 8 = 5 + 3 (register-immediate ADD is integer
addition) and RAM[0] = 8. -/
theorem C4_scenario_eval :
    (assemble c4src).program
      = [0x01, 0x05, 0xFF, 0x0D, 0x00, 0x03, 0x03, 0x00, 0x00, 0x00, 0xFF, 0xFF]
    ∧ (run 20 (load_program (assemble c4src).program)).registers 0 = 8
    ∧ (run 20 (load_program (assemble c4src).program)).ram 0 = 8 := by
  decide

/-- Claim C7, counterexample: a jump to the never-defined label
`missing` assembles to completion; the placeholder bytes 0xFF 0xFF
remain in the output at offsets 1 and 2, and the pending entry is
still queued — assembly succeeds instead of ending in an
UndefinedLabel error. -/
theorem C7_undefined_label_counterexample :
    (assemble ["JMP Z, missing", "NOP"]).program
      = [0x14, 0xFF, 0xFF, 0x00, 0xFF, 0xFF]
    ∧ (assemble ["JMP Z, missing", "NOP"]).waiting.lookup "missing" = some 2 := by
  decide

/-- Claim C7 as amended: a conditional jump to a label that is neither
resolved nor already pending emits the opcode with the placeholder
bytes 0xFF 0xFF and queues the label; nothing at end of input raises
an error, so an undefined label simply leaves the placeholder in the
finished output. -/
theorem C7_undefined_label_behavior (s : AsmState) (lbl : String)
    (h1 : s.labels.lookup lbl = none) (h2 : s.waiting.lookup lbl = none) :
    (main_step s ["JMP", "Z,", lbl]).program = s.program ++ [0x14, 0xFF, 0xFF]
    ∧ (main_step s ["JMP", "Z,", lbl]).waiting.lookup lbl
      = some ((s.address + 2) % 65536) := by
  have hp : parse_line ["JMP", "Z,", lbl] s
      = parse_chain_cp "JMP" ["Z,", lbl] {} s.address s.address
          s.program s.labels s.waiting := rfl
  have hq : parse_chain_cp "JMP" ["Z,", lbl] {} s.address s.address
        s.program s.labels s.waiting
      = finishLine
          { opcode := some 0x14,
            operand1 := byte ((get_label_address (((s.address + 1) % 65536 + 1) % 65536)
              lbl s.labels s.waiting).1 >>> 8),
            operand2 := byte (get_label_address (((s.address + 1) % 65536 + 1) % 65536)
              lbl s.labels s.waiting).1 }
          s.address (((s.address + 1) % 65536 + 1) % 65536) s.program s.labels
          (get_label_address (((s.address + 1) % 65536 + 1) % 65536)
            lbl s.labels s.waiting).2 := rfl
  have hr : get_label_address (((s.address + 1) % 65536 + 1) % 65536) lbl s.labels s.waiting
      = (65535, (lbl, ((s.address + 1) % 65536 + 1) % 65536) :: s.waiting) := by
    unfold get_label_address mapInsert
    rw [h1, h2]
    rfl
  have e11 : byte (65535 >>> 8) = 255 := by decide
  have e12 : byte 65535 = 255 := by decide
  have hm : (s.address + 1) % 65536 % 65536 + 1 = (s.address + 1) % 65536 + 1 := by omega
  have e13 : (255 : Int) ≠ EMPTY_OPERAND := by decide
  constructor
  · simp only [main_step, hp, hq, hr, finishLine, e11, e12]
    simp [e13, List.append_assoc]
  · simp only [main_step, hp, hq, hr, finishLine, e11, e12]
    simp [List.lookup]

/-- Claim C7, witness for the amended theorem on the empty assembler
state and the label `missing`. -/
theorem C7_undefined_label_behavior_witness :
    (({} : AsmState).labels.lookup "missing" = none)
    ∧ (({} : AsmState).waiting.lookup "missing" = none)
    ∧ ((main_step {} ["JMP", "Z,", "missing"]).program
        = ({} : AsmState).program ++ [0x14, 0xFF, 0xFF]
      ∧ (main_step {} ["JMP", "Z,", "missing"]).waiting.lookup "missing"
        = some ((({} : AsmState).address + 2) % 65536)) :=
  ⟨by decide, by decide,
    C7_undefined_label_behavior {} "missing" (by decide) (by decide)⟩

/-- Claim C8, failing-input evaluation: assembling the single line NOP
leaves the address counter at 1 while three bytes 00 FF FF are in the
Program buffer — the counter does not track bytes emitted, and the
final counter differs from the Program's length. -/
theorem C8_address_counter_mismatch :
    (assemble ["NOP"]).address = 1
    ∧ (assemble ["NOP"]).program.length = 3
    ∧ (assemble ["NOP"]).program = [0x00, 0xFF, 0xFF] := by
  decide

/-- Claim C10, confirmed: whenever `parse_line` returns a non-label
line whose opcode was set, the driver appends exactly three bytes —
the opcode and both operand fields — because the uint8_t operand
fields can never compare equal to `EMPTY_OPERAND = -1`; and the VM
skips a fetched 0xFF opcode byte. -/
theorem C10_three_bytes_per_line (tokens : List String) (s : AsmState)
    (op : Nat) (t : VMState)
    (h1 : (parse_line tokens s).1.is_label = false)
    (h2 : (parse_line tokens s).1.instruction.opcode = some op) :
    (main_step s tokens).program
      = (parse_line tokens s).2.program
        ++ [op, (parse_line tokens s).1.instruction.operand1,
            (parse_line tokens s).1.instruction.operand2]
    ∧ execute 0xFF t = (t, false) := by
  refine ⟨?_, rfl⟩
  simp [main_step, h1, h2, natCast_ne_empty_operand]

/-- Claim C10, witness for the theorem on the line NOP in the empty
assembler state. -/
theorem C10_three_bytes_per_line_witness :
    ((parse_line ["NOP"] ({} : AsmState)).1.is_label = false)
    ∧ ((parse_line ["NOP"] ({} : AsmState)).1.instruction.opcode = some 0x00)
    ∧ ((main_step {} ["NOP"]).program
        = (parse_line ["NOP"] ({} : AsmState)).2.program
          ++ [0x00, (parse_line ["NOP"] ({} : AsmState)).1.instruction.operand1,
              (parse_line ["NOP"] ({} : AsmState)).1.instruction.operand2]
      ∧ execute 0xFF (load_program []) = (load_program [], false)) :=
  ⟨by decide, by decide,
    C10_three_bytes_per_line ["NOP"] {} 0x00 (load_program []) (by decide) (by decide)⟩

end CPUEmulator
